import Mathlib

/-!
Verification of the HubSpot OAuth2 CRM connector
(`backend/integrations/hubspot.py`).

The module is embedded shallowly:

* JSON values (what `json.loads` / `response.json()` yield) are the
  inductive type `JValue`; Python dictionary operations (`d[k]`,
  `d.get(k, default)`), truthiness and `str()` conversion are modelled
  as total Lean functions over `JValue` with Python's error behaviour
  made explicit through `Except PyError`.
* The external key-value store (redis) holds JSON values directly: the
  external json library's `dumps`/`loads` pair is a faithful
  serialization, so it is modelled as the identity at the JSON-value
  level.
* Network endpoints (the OAuth token endpoint and the CRM data API) are
  parameters of each operation's environment record: a function from the
  request's variable parts to an `HttpResponse`.
* Python exceptions (`HTTPException`, `KeyError`, `ValueError`,
  `TypeError`, `AttributeError`) are constructors of `PyError`; an
  operation that can raise returns `Except PyError _`.
-/

namespace HubSpot

/-- JSON values, as produced by the external json library from a response
body or a stored credential string.  Object fields keep their insertion
order, as Python dicts do. -/
inductive JValue where
  | null
  | bool (b : Bool)
  | num (n : Int)
  | str (s : String)
  | arr (elems : List JValue)
  | obj (fields : List (String × JValue))

/-- Python exceptions raised (or propagated) by the module. -/
inductive PyError where
  | httpException (status : Nat) (detail : String)
  | keyError (key : String)
  | valueError (msg : String)
  | typeError (msg : String)
  | attributeError (msg : String)
deriving DecidableEq

/-- First-match lookup in a JSON object's field list (Python dict lookup;
keys in a dict are unique, so first match is the match). -/
def jLookup : List (String × JValue) → String → Option JValue
  | [], _ => none
  | (k, v) :: rest, key => if k = key then some v else jLookup rest key

/-- Python `d[key]` on a JSON value: the value when `d` is an object
containing `key`, `KeyError` when the key is absent, `TypeError` when `d`
is not a dict. -/
def pyGetItem : JValue → String → Except PyError JValue
  | .obj fields, key =>
    match jLookup fields key with
    | some v => .ok v
    | none => .error (.keyError key)
  | _, _ => .error (.typeError "object is not subscriptable")

/-- Python `d.get(key, default)`: `AttributeError` when `d` is not a dict. -/
def pyDictGetD : JValue → String → JValue → Except PyError JValue
  | .obj fields, key, dflt => .ok ((jLookup fields key).getD dflt)
  | _, _, _ => .error (.attributeError "object has no attribute get")

/-- Python truthiness of a JSON value (`if x:`). -/
def pyTruthy : JValue → Bool
  | .null => false
  | .bool b => b
  | .num n => n != 0
  | .str s => s != ""
  | .arr elems => !elems.isEmpty
  | .obj fields => !fields.isEmpty

mutual

/-- Python `str(x)` for a JSON value, as interpolated by an f-string. -/
def pyStr : JValue → String
  | .null => "None"
  | .bool true => "True"
  | .bool false => "False"
  | .num n => toString n
  | .str s => s
  | .arr elems => "[" ++ pyReprList elems ++ "]"
  | .obj fields => "\x7b" ++ pyReprFields fields ++ "\x7d"

/-- Python `repr(x)` for a JSON value (used for elements of containers;
it differs from `str` only in quoting strings). -/
def pyRepr : JValue → String
  | .null => "None"
  | .bool true => "True"
  | .bool false => "False"
  | .num n => toString n
  | .str s => "'" ++ s ++ "'"
  | .arr elems => "[" ++ pyReprList elems ++ "]"
  | .obj fields => "\x7b" ++ pyReprFields fields ++ "\x7d"
termination_by structural v => v

def pyReprList : List JValue → String
  | [] => ""
  | [v] => pyRepr v
  | v :: rest => pyRepr v ++ ", " ++ pyReprList rest
termination_by structural l => l

def pyReprFields : List (String × JValue) → String
  | [] => ""
  | [(k, v)] => "'" ++ k ++ "': " ++ pyRepr v
  | (k, v) :: rest => "'" ++ k ++ "': " ++ pyRepr v ++ ", " ++ pyReprFields rest
termination_by structural l => l

end

/-- Truthiness of an optional string (a query parameter or an environment
variable: `None` and `""` are falsy). -/
def truthyOptStr : Option String → Bool
  | none => false
  | some s => s != ""

/-- Python `s.strip()`: remove leading and trailing whitespace. -/
def pyStrip (s : String) : String :=
  String.mk (((s.data.dropWhile Char.isWhitespace).reverse.dropWhile Char.isWhitespace).reverse)

def pySplitColonAux : List Char → List Char → List String
  | [], acc => [String.mk acc.reverse]
  | c :: rest, acc =>
    if c = ':' then String.mk acc.reverse :: pySplitColonAux rest []
    else pySplitColonAux rest (c :: acc)

/-- Python `s.split(":")`: split on every colon (no maxsplit), keeping
empty parts; `"".split(":")` is `[""]`. -/
def pySplitColon (s : String) : List String :=
  pySplitColonAux s.data []

/-! ## Module-level configuration and constants -/

/-- The module-level configuration read from the environment:
`HUBSPOT_CLIENT_ID` and `HUBSPOT_CLIENT_SECRET` come from `os.getenv` and
may be absent; `HUBSPOT_REDIRECT_URI` has a default and is always a
string. -/
structure HubSpotConfig where
  clientId : Option String
  clientSecret : Option String
  redirectUri : String
deriving DecidableEq

def HUBSPOT_SCOPES : List String :=
  ["crm.objects.companies.read",
   "crm.objects.contacts.read",
   "crm.objects.contacts.write",
   "crm.schemas.contacts.read",
   "crm.schemas.contacts.write",
   "oauth"]

def HUBSPOT_AUTH_URL : String := "https://app.hubspot.com/oauth/authorize"

def HUBSPOT_TOKEN_URL : String := "https://api.hubapi.com/oauth/v1/token"

def HUBSPOT_API_BASE : String := "https://api.hubapi.com"

/-! ## urlencode (external `urllib.parse.urlencode`, default quoting) -/

def hexDigitChar (n : Nat) : Char :=
  if n < 10 then Char.ofNat (48 + n) else Char.ofNat (55 + n)

def percentByte (b : Nat) : String :=
  "%" ++ String.singleton (hexDigitChar (b / 16)) ++ String.singleton (hexDigitChar (b % 16))

/-- `urllib.parse.quote_plus` on one character: alphanumerics and
`-`, `_`, `.`, `~` kept, space mapped to `+`, everything else
percent-encoded byte-wise from its UTF-8 encoding. -/
def quotePlusChar (c : Char) : String :=
  if c.isAlphanum || c == '-' || c == '_' || c == '.' || c == '~' then
    String.singleton c
  else if c == ' ' then "+"
  else String.join (((String.singleton c).toUTF8.toList.map (fun b => percentByte b.toNat)))

def quotePlus (s : String) : String :=
  String.join (s.toList.map quotePlusChar)

/-- `urllib.parse.urlencode` over an ordered association list. -/
def urlencode (params : List (String × String)) : String :=
  String.intercalate "&" (params.map (fun kv => quotePlus kv.1 ++ "=" ++ quotePlus kv.2))

/-! ## authorize_hubspot -/

/-- A `SETEX` write of the pending-authorization marker to the key-value
store. -/
structure MarkerWrite where
  key : String
  ttlSeconds : Nat
  value : String
deriving DecidableEq

structure AuthorizeResult where
  auth_url : String
  markerWrite : MarkerWrite
deriving DecidableEq

/-- `authorize_hubspot(user_id, org_id)`: checks the client configuration,
writes the state marker with a 3600 second expiry, and builds the consent
URL. -/
def authorize_hubspot (cfg : HubSpotConfig) (user_id org_id : String) :
    Except PyError AuthorizeResult :=
  if !truthyOptStr cfg.clientId || !truthyOptStr cfg.clientSecret then
    .error (.httpException 500 "HubSpot client configuration is missing")
  else
    let state := user_id ++ ":" ++ org_id
    let params := [("client_id", cfg.clientId.getD ""),
                   ("redirect_uri", cfg.redirectUri),
                   ("scope", String.intercalate " " HUBSPOT_SCOPES),
                   ("state", state)]
    .ok { auth_url := HUBSPOT_AUTH_URL ++ "?" ++ urlencode params,
          markerWrite := { key := "hubspot_state:" ++ state, ttlSeconds := 3600, value := "1" } }

/-! ## oauth2callback_hubspot and the credential store -/

/-- The credential region of the key-value store.  The source stores
`json.dumps(credentials)` under the key and reads it back with
`json.loads`; since the external json library's `dumps`/`loads` pair is a
faithful serialization of a dict, the store is modelled as holding the
JSON value itself. -/
abbrev Store := List (String × JValue)

def storeGet (store : Store) (key : String) : Option JValue :=
  match store with
  | [] => none
  | (k, v) :: rest => if k = key then some v else storeGet rest key

/-- `SET key value` (redis overwrite semantics: the new binding shadows
any previous one). -/
def storeSet (store : Store) (key : String) (v : JValue) : Store :=
  (key, v) :: store

/-- An HTTP response from the provider: status code plus decoded JSON
body. -/
structure HttpResponse where
  status : Nat
  body : JValue

/-- The query parameters of the callback request (`request.query_params`);
each is absent or a string. -/
structure QueryParams where
  code : Option String
  state : Option String
  error : Option String

/-- Environment of the callback handler: the configuration, the state
marker region of the key-value store as read at callback time (`None`
models both an absent and an expired marker, since redis drops a key when
its TTL elapses), and the provider's token endpoint as a function of the
variable parts of the POST form
(`client_id`, `client_secret`, `redirect_uri`, `code`). -/
structure CallbackEnv where
  cfg : HubSpotConfig
  markerGet : String → Option String
  tokenPost : Option String → Option String → String → String → HttpResponse

/-- The credential bundle dict built by the callback from the token
response body (lines 96–101 of the source): `access_token`, `expires_in`
and `token_type` by `[]`-lookup (raising `KeyError` when absent),
`refresh_token` by `.get` (becoming `null` when absent). -/
def credentialsOf (token_data : JValue) : Except PyError JValue :=
  match pyGetItem token_data "access_token" with
  | .error e => .error e
  | .ok accessTok =>
    match pyDictGetD token_data "refresh_token" .null with
    | .error e => .error e
    | .ok refreshTok =>
      match pyGetItem token_data "expires_in" with
      | .error e => .error e
      | .ok expiresIn =>
        match pyGetItem token_data "token_type" with
        | .error e => .error e
        | .ok tokenType =>
          .ok (.obj [("access_token", accessTok),
                     ("refresh_token", refreshTok),
                     ("expires_in", expiresIn),
                     ("token_type", tokenType)])

/-- Result of one callback invocation: the raised exception or the
success message together with the updated credential store, plus the
number of POSTs made to the token endpoint during the invocation. -/
structure CallbackOutcome where
  result : Except PyError (String × Store)
  tokenPosts : Nat

/-- `oauth2callback_hubspot(request)`.  Order of checks follows the
source: provider `error` parameter, missing `code`/`state`, state marker
lookup, token exchange, state split and 2-tuple unpack, credential build
and store write. -/
def oauth2callback_hubspot (env : CallbackEnv) (params : QueryParams)
    (credStore : Store) : CallbackOutcome :=
  if truthyOptStr params.error then
    { result := .error (.httpException 400
        ("HubSpot authorization error: " ++ params.error.getD "")),
      tokenPosts := 0 }
  else if !truthyOptStr params.code || !truthyOptStr params.state then
    { result := .error (.httpException 400 "Missing required parameters"),
      tokenPosts := 0 }
  else
    if !truthyOptStr (env.markerGet ("hubspot_state:" ++ params.state.getD "")) then
      { result := .error (.httpException 400 "Invalid state parameter"),
        tokenPosts := 0 }
    else
      if (env.tokenPost env.cfg.clientId env.cfg.clientSecret
            env.cfg.redirectUri (params.code.getD "")).status ≠ 200 then
        { result := .error (.httpException 400 "Failed to get access token"),
          tokenPosts := 1 }
      else
        match pySplitColon (params.state.getD "") with
        | [user_id, org_id] =>
          match credentialsOf (env.tokenPost env.cfg.clientId env.cfg.clientSecret
              env.cfg.redirectUri (params.code.getD "")).body with
          | .error e => { result := .error e, tokenPosts := 1 }
          | .ok credentials =>
            { result := .ok ("Successfully authenticated with HubSpot",
                storeSet credStore
                  ("hubspot_credentials:" ++ user_id ++ ":" ++ org_id)
                  credentials),
              tokenPosts := 1 }
        | [_] =>
          { result := .error (.valueError "not enough values to unpack (expected 2, got 1)"),
            tokenPosts := 1 }
        | _ =>
          { result := .error (.valueError "too many values to unpack (expected 2)"),
            tokenPosts := 1 }

/-- `get_hubspot_credentials(user_id, org_id)`: lookup of the serialized
bundle followed by `json.loads`.  The source returns `None` when the
lookup result is falsy; the stored value is `json.dumps` of a dict, a
nonempty string, so the falsy case is exactly the absent key. -/
def get_hubspot_credentials (credStore : Store) (user_id org_id : String) :
    Option JValue :=
  storeGet credStore ("hubspot_credentials:" ++ user_id ++ ":" ++ org_id)

/-! ## refresh_access_token, make_request and get_items_hubspot -/

/-- Environment of the record fetcher: the configuration, the provider's
data API as a function of the `Authorization` header value and the
endpoint path, and the token endpoint's response to a refresh POST as a
function of the variable parts of the form
(`client_id`, `client_secret`, `refresh_token`). -/
structure FetchEnv where
  cfg : HubSpotConfig
  dataGet : String → String → HttpResponse
  refreshPost : Option String → Option String → JValue → HttpResponse

/-- `refresh_access_token(refresh_token)`: POST the refresh-token grant;
non-200 raises a 400, otherwise the decoded body is returned (and not
persisted). -/
def refresh_access_token (env : FetchEnv) (refresh_token : JValue) :
    Except PyError JValue :=
  let response := env.refreshPost env.cfg.clientId env.cfg.clientSecret refresh_token
  if response.status ≠ 200 then
    .error (.httpException 400 "Failed to refresh access token")
  else
    .ok response.body

/-- How many refresh POSTs and retried GETs one `make_request` call
performed. -/
structure RequestTrace where
  refreshCalls : Nat
  retriedGets : Nat
deriving DecidableEq

/-- The nested helper `make_request(endpoint)` of `get_items_hubspot`:
an authenticated GET; on 401 with a truthy `refresh_token` in the
credential bundle, one refresh and one retried GET whose body is returned
without a status check; on any other non-200 status an `HTTPException`
carrying the upstream status. -/
def make_request (env : FetchEnv) (credentials access_token : JValue)
    (endpoint : String) : Except PyError JValue × RequestTrace :=
  let headerVal := "Bearer " ++ pyStr access_token
  let response := env.dataGet headerVal endpoint
  if response.status = 401 then
    match pyDictGetD credentials "refresh_token" .null with
    | .error e => (.error e, ⟨0, 0⟩)
    | .ok refreshVal =>
      if pyTruthy refreshVal then
        match pyGetItem credentials "refresh_token" with
        | .error e => (.error e, ⟨0, 0⟩)
        | .ok refresh_token =>
          match refresh_access_token env refresh_token with
          | .error e => (.error e, ⟨1, 0⟩)
          | .ok new_tokens =>
            match pyGetItem new_tokens "access_token" with
            | .error e => (.error e, ⟨1, 0⟩)
            | .ok newTok =>
              let retry_response := env.dataGet ("Bearer " ++ pyStr newTok) endpoint
              (.ok retry_response.body, ⟨1, 1⟩)
      else
        (.error (.httpException response.status "Failed to fetch HubSpot data"), ⟨0, 0⟩)
  else if response.status ≠ 200 then
    (.error (.httpException response.status "Failed to fetch HubSpot data"), ⟨0, 0⟩)
  else
    (.ok response.body, ⟨0, 0⟩)

/-- A parsed timestamp.  The nested helper `parse_datetime` delegates to
the external `dateutil.parser.parse`, a permissive ISO-8601 parser; it is
modelled abstractly by the accepted source string, with `dateutil`'s
`TypeError` on non-string input. -/
structure PyDateTime where
  iso : String
deriving DecidableEq

def parse_datetime : JValue → Except PyError PyDateTime
  | .str s => .ok ⟨s⟩
  | _ => .error (.typeError "parser must be a string or character stream")

/-- Modelled from the spec: the `IntegrationItem` record class (its
defining file `integration_item.py` is not in the provided sources) — the
normalized output record `(id, type tag, display name, creation time,
last-modified time, canonical URL)`; the constructor stores the keyword
arguments unchanged, so the fields carry exactly what the call sites in
`get_items_hubspot` pass. -/
structure IntegrationItem where
  id : JValue
  type : String
  name : JValue
  creation_time : PyDateTime
  last_modified_time : PyDateTime
  url : String

/-- Python iteration over a JSON value (`for x in v`): list elements;
characters of a string as 1-character strings; keys of a dict; `TypeError`
otherwise. -/
def pyIterList : JValue → Except PyError (List JValue)
  | .arr elems => .ok elems
  | .str s => .ok (s.toList.map (fun c => .str (String.singleton c)))
  | .obj fields => .ok (fields.map (fun kv => .str kv.1))
  | _ => .error (.typeError "object is not iterable")

/-- One iteration of the contacts loop of `get_items_hubspot` (lines
176–192): name from the `firstname`/`lastname` properties with `""`
defaults, trimmed; the trace `print`s access `id`, `createdAt`,
`updatedAt` before the item is built. -/
def contact_to_item (contact : JValue) : Except PyError IntegrationItem :=
  match pyGetItem contact "properties" with
  | .error e => .error e
  | .ok props =>
    match pyDictGetD props "firstname" (.str "") with
    | .error e => .error e
    | .ok firstVal =>
      match pyDictGetD props "lastname" (.str "") with
      | .error e => .error e
      | .ok lastVal =>
        let name := pyStrip (pyStr firstVal ++ " " ++ pyStr lastVal)
        match pyGetItem contact "id" with
        | .error e => .error e
        | .ok idVal =>
          match pyGetItem contact "createdAt" with
          | .error e => .error e
          | .ok createdAt =>
            match pyGetItem contact "updatedAt" with
            | .error e => .error e
            | .ok updatedAt =>
              match parse_datetime createdAt with
              | .error e => .error e
              | .ok creation =>
                match parse_datetime updatedAt with
                | .error e => .error e
                | .ok modified =>
                  .ok { id := idVal, type := "contact", name := .str name,
                        creation_time := creation, last_modified_time := modified,
                        url := "https://app.hubspot.com/contacts/" ++ pyStr idVal }

/-- One iteration of the companies loop of `get_items_hubspot` (lines
199–215): name is the `name` property with the literal
`"Unnamed Company"` default. -/
def company_to_item (company : JValue) : Except PyError IntegrationItem :=
  match pyGetItem company "properties" with
  | .error e => .error e
  | .ok props =>
    match pyDictGetD props "name" (.str "Unnamed Company") with
    | .error e => .error e
    | .ok nameVal =>
      match pyGetItem company "id" with
      | .error e => .error e
      | .ok idVal =>
        match pyGetItem company "createdAt" with
        | .error e => .error e
        | .ok createdAt =>
          match pyGetItem company "updatedAt" with
          | .error e => .error e
          | .ok updatedAt =>
            match parse_datetime createdAt with
            | .error e => .error e
            | .ok creation =>
              match parse_datetime updatedAt with
              | .error e => .error e
              | .ok modified =>
                .ok { id := idVal, type := "company", name := nameVal,
                      creation_time := creation, last_modified_time := modified,
                      url := "https://app.hubspot.com/companies/" ++ pyStr idVal }

/-- Run a per-record mapping over a whole results list; the first raised
exception aborts the loop, as in the source's `for` body. -/
def mapExcept (f : JValue → Except PyError IntegrationItem) :
    List JValue → Except PyError (List IntegrationItem)
  | [] => .ok []
  | record :: rest =>
    match f record with
    | .error e => .error e
    | .ok item =>
      match mapExcept f rest with
      | .error e => .error e
      | .ok items => .ok (item :: items)

/-- `get_items_hubspot(credentials_str)` after the external `json.loads`
of its string argument: extract `access_token`, fetch and map the
contacts collection, then fetch and map the companies collection, and
return the concatenated items. -/
def get_items_hubspot (env : FetchEnv) (credentials : JValue) :
    Except PyError (List IntegrationItem) :=
  match pyGetItem credentials "access_token" with
  | .error e => .error e
  | .ok access_token =>
    match (make_request env credentials access_token "crm/v3/objects/contacts").fst with
    | .error e => .error e
    | .ok contacts_response =>
      match pyDictGetD contacts_response "results" (.arr []) with
      | .error e => .error e
      | .ok contactsResults =>
        match pyIterList contactsResults with
        | .error e => .error e
        | .ok contactRecords =>
          match mapExcept contact_to_item contactRecords with
          | .error e => .error e
          | .ok contactItems =>
            match (make_request env credentials access_token "crm/v3/objects/companies").fst with
            | .error e => .error e
            | .ok companies_response =>
              match pyDictGetD companies_response "results" (.arr []) with
              | .error e => .error e
              | .ok companiesResults =>
                match pyIterList companiesResults with
                | .error e => .error e
                | .ok companyRecords =>
                  match mapExcept company_to_item companyRecords with
                  | .error e => .error e
                  | .ok companyItems =>
                    .ok (contactItems ++ companyItems)

/-! ## Concrete sample data used by the witnesses -/

def sampleCredsRT : JValue :=
  .obj [("access_token", .str "tokOld"), ("refresh_token", .str "r1")]

def sampleCredsNoRT : JValue :=
  .obj [("access_token", .str "tokOld")]

def sampleRefreshBody : JValue :=
  .obj [("access_token", .str "tokNew")]

def sampleItemsBody : JValue :=
  .obj [("results", .arr [])]

def fetchEnv401 : FetchEnv :=
  { cfg := { clientId := some "cid", clientSecret := some "sec",
             redirectUri := "http://localhost:8000/integrations/hubspot/oauth2callback" },
    dataGet := fun headerVal _ =>
      if headerVal = "Bearer tokNew" then ⟨200, sampleItemsBody⟩ else ⟨401, .null⟩,
    refreshPost := fun _ _ _ => ⟨200, sampleRefreshBody⟩ }

def sampleTokenBody : JValue :=
  .obj [("access_token", .str "tokA"), ("refresh_token", .str "tokR"),
        ("expires_in", .num 1800), ("token_type", .str "bearer")]

/-- The credential bundle the callback builds from `sampleTokenBody`. -/
def sampleStoredCreds : JValue :=
  .obj [("access_token", .str "tokA"), ("refresh_token", .str "tokR"),
        ("expires_in", .num 1800), ("token_type", .str "bearer")]

def cbEnvOk : CallbackEnv :=
  { cfg := { clientId := some "cid", clientSecret := some "sec",
             redirectUri := "http://localhost:8000/integrations/hubspot/oauth2callback" },
    markerGet := fun _ => some "1",
    tokenPost := fun _ _ _ _ => ⟨200, sampleTokenBody⟩ }

def cbEnvNoMarker : CallbackEnv :=
  { cfg := { clientId := some "cid", clientSecret := some "sec",
             redirectUri := "http://localhost:8000/integrations/hubspot/oauth2callback" },
    markerGet := fun _ => none,
    tokenPost := fun _ _ _ _ => ⟨200, sampleTokenBody⟩ }

def cbEnvNoSecret : CallbackEnv :=
  { cfg := { clientId := some "cid", clientSecret := none,
             redirectUri := "http://localhost:8000/integrations/hubspot/oauth2callback" },
    markerGet := fun _ => some "1",
    tokenPost := fun _ _ _ _ => ⟨200, sampleTokenBody⟩ }

/-! ## Claims -/

/-- C1: with a truthy `refresh_token` in the credential bundle, a 401 on
the authenticated GET makes `make_request` perform exactly one refresh
call and exactly one retried GET, returning the retried response's body
without re-checking its status (the conclusion holds whatever status the
retry carries); with no (or a falsy) refresh token, a 401 raises an
`HTTPException` carrying the upstream 401 status. -/
theorem c1_refresh_retry :
    (∀ (env : FetchEnv) (credentials access_token : JValue) (endpoint : String)
        (refreshVal newTok : JValue),
      (env.dataGet ("Bearer " ++ pyStr access_token) endpoint).status = 401 →
      pyDictGetD credentials "refresh_token" .null = .ok refreshVal →
      pyTruthy refreshVal = true →
      pyGetItem credentials "refresh_token" = .ok refreshVal →
      (env.refreshPost env.cfg.clientId env.cfg.clientSecret refreshVal).status = 200 →
      pyGetItem (env.refreshPost env.cfg.clientId env.cfg.clientSecret refreshVal).body
        "access_token" = .ok newTok →
      make_request env credentials access_token endpoint =
        (.ok (env.dataGet ("Bearer " ++ pyStr newTok) endpoint).body, ⟨1, 1⟩)) ∧
    (∀ (env : FetchEnv) (credentials access_token : JValue) (endpoint : String)
        (refreshVal : JValue),
      (env.dataGet ("Bearer " ++ pyStr access_token) endpoint).status = 401 →
      pyDictGetD credentials "refresh_token" .null = .ok refreshVal →
      pyTruthy refreshVal = false →
      make_request env credentials access_token endpoint =
        (.error (.httpException 401 "Failed to fetch HubSpot data"), ⟨0, 0⟩)) := by
  constructor
  · intro env credentials access_token endpoint refreshVal newTok h401 hget httruthy hitem
      hstatus htok
    simp [make_request, refresh_access_token, h401, hget, httruthy, hitem, hstatus, htok]
  · intro env credentials access_token endpoint refreshVal h401 hget hfalsy
    simp [make_request, h401, hget, hfalsy]

theorem c1_refresh_retry_witness :
    make_request fetchEnv401 sampleCredsRT (.str "tokOld") "crm/v3/objects/contacts" =
      (.ok sampleItemsBody, ⟨1, 1⟩) ∧
    make_request fetchEnv401 sampleCredsNoRT (.str "tokOld") "crm/v3/objects/contacts" =
      (.error (.httpException 401 "Failed to fetch HubSpot data"), ⟨0, 0⟩) := by
  constructor
  · have h := c1_refresh_retry.1 fetchEnv401 sampleCredsRT (.str "tokOld")
      "crm/v3/objects/contacts" (.str "r1") (.str "tokNew") rfl rfl rfl rfl rfl rfl
    exact h
  · exact c1_refresh_retry.2 fetchEnv401 sampleCredsNoRT (.str "tokOld")
      "crm/v3/objects/contacts" .null rfl rfl rfl

/-- C2: when a callback succeeds for a state `user_id ++ ":" ++ org_id`,
the bundle built from the token response is persisted under the
credential key, and `get_hubspot_credentials` on the resulting store,
with no intervening writes, returns exactly that bundle (the external
`json.dumps`/`json.loads` round trip being the identity at the JSON-value
level). -/
theorem c2_credentials_roundtrip (env : CallbackEnv) (params : QueryParams)
    (credStore : Store) (st uid oid cd msg : String) (creds : JValue) (store' : Store)
    (hst : params.state = some st)
    (hsplit : pySplitColon st = [uid, oid])
    (hcd : params.code = some cd)
    (hcreds : credentialsOf (env.tokenPost env.cfg.clientId env.cfg.clientSecret
        env.cfg.redirectUri cd).body = .ok creds)
    (hok : (oauth2callback_hubspot env params credStore).result = .ok (msg, store')) :
    get_hubspot_credentials store' uid oid = some creds := by
  unfold oauth2callback_hubspot at hok
  rw [hst, hcd] at hok
  simp only [Option.getD_some] at hok
  rw [hsplit, hcreds] at hok
  split at hok
  · simp at hok
  · split at hok
    · simp at hok
    · split at hok
      · simp at hok
      · split at hok
        · simp at hok
        · simp only [Except.ok.injEq, Prod.mk.injEq] at hok
          rw [← hok.2]
          simp [get_hubspot_credentials, storeGet, storeSet]

theorem c2_credentials_roundtrip_witness :
    (oauth2callback_hubspot cbEnvOk ⟨some "code123", some "u:o", none⟩ []).result =
      .ok ("Successfully authenticated with HubSpot",
           [("hubspot_credentials:u:o", sampleStoredCreds)]) ∧
    get_hubspot_credentials [("hubspot_credentials:u:o", sampleStoredCreds)] "u" "o" =
      some sampleStoredCreds :=
  ⟨rfl, c2_credentials_roundtrip cbEnvOk ⟨some "code123", some "u:o", none⟩ []
    "u:o" "u" "o" "code123" "Successfully authenticated with HubSpot"
    sampleStoredCreds [("hubspot_credentials:u:o", sampleStoredCreds)]
    rfl rfl rfl rfl rfl⟩

/-- C3: a callback whose state has no non-expired marker in the store
(the marker lookup is falsy) fails with the invalid-state error and
performs zero token-endpoint POSTs, however valid its `code`; and,
conversely, any accepted callback had a truthy (present, non-expired)
marker for its state. -/
theorem c3_state_marker_invariant :
    (∀ (env : CallbackEnv) (params : QueryParams) (credStore : Store) (st : String),
      truthyOptStr params.error = false →
      truthyOptStr params.code = true →
      params.state = some st → st ≠ "" →
      truthyOptStr (env.markerGet ("hubspot_state:" ++ st)) = false →
      oauth2callback_hubspot env params credStore =
        ⟨.error (.httpException 400 "Invalid state parameter"), 0⟩) ∧
    (∀ (env : CallbackEnv) (params : QueryParams) (credStore : Store)
        (res : String × Store),
      (oauth2callback_hubspot env params credStore).result = .ok res →
      ∃ st, params.state = some st ∧
        truthyOptStr (env.markerGet ("hubspot_state:" ++ st)) = true) := by
  constructor
  · intro env params credStore st herr hcode hst hne hmarker
    have hsome : truthyOptStr (some st) = true := by simp [truthyOptStr, hne]
    simp [oauth2callback_hubspot, herr, hcode, hst, hsome, hmarker]
  · intro env params credStore res hok
    unfold oauth2callback_hubspot at hok
    split at hok
    · simp at hok
    · split at hok
      · simp at hok
      · rename_i hguard hcs
        split at hok
        · simp at hok
        · rename_i hmarker
          match hstate : params.state with
          | none =>
            rw [hstate] at hcs
            simp [truthyOptStr] at hcs
          | some st =>
            refine ⟨st, rfl, ?_⟩
            rw [hstate] at hmarker
            simp only [Option.getD_some] at hmarker
            cases htm : truthyOptStr (env.markerGet ("hubspot_state:" ++ st)) with
            | true => rfl
            | false => rw [htm] at hmarker; simp at hmarker

theorem c3_state_marker_invariant_witness :
    oauth2callback_hubspot cbEnvNoMarker ⟨some "code123", some "u:o", none⟩ [] =
      ⟨.error (.httpException 400 "Invalid state parameter"), 0⟩ ∧
    (∃ st, (some "u:o" : Option String) = some st ∧
      truthyOptStr (cbEnvOk.markerGet ("hubspot_state:" ++ st)) = true) :=
  ⟨c3_state_marker_invariant.1 cbEnvNoMarker ⟨some "code123", some "u:o", none⟩ []
      "u:o" rfl rfl rfl (by decide) rfl,
   c3_state_marker_invariant.2 cbEnvOk ⟨some "code123", some "u:o", none⟩ []
      ("Successfully authenticated with HubSpot",
        [("hubspot_credentials:u:o", sampleStoredCreds)]) rfl⟩

/-- C4 counterexample: the claim says the callback handler fails fast
with a configuration error when the client secret is absent.  It does
not: with the secret absent from the configuration, a callback with
valid parameters proceeds through the token exchange (one POST) and
succeeds. -/
theorem c4_config_counterexample :
    truthyOptStr cbEnvNoSecret.cfg.clientSecret = false ∧
    (oauth2callback_hubspot cbEnvNoSecret ⟨some "code123", some "u:o", none⟩ []).tokenPosts = 1 ∧
    (oauth2callback_hubspot cbEnvNoSecret ⟨some "code123", some "u:o", none⟩ []).result =
      .ok ("Successfully authenticated with HubSpot",
           [("hubspot_credentials:u:o", sampleStoredCreds)]) :=
  ⟨rfl, rfl, rfl⟩

/-- C4 amended: only the authorization initiator checks the
configuration — `authorize_hubspot` fails fast with the 500 configuration
error whenever the client id or client secret is absent or empty; the
callback handler performs no configuration check and, on valid callback
inputs, always reaches the token exchange (one POST), whatever the
configuration holds. -/
theorem c4_config_check_amended :
    (∀ (cfg : HubSpotConfig) (user_id org_id : String),
      truthyOptStr cfg.clientId = false ∨ truthyOptStr cfg.clientSecret = false →
      authorize_hubspot cfg user_id org_id =
        .error (.httpException 500 "HubSpot client configuration is missing")) ∧
    (∀ (env : CallbackEnv) (params : QueryParams) (credStore : Store) (st : String),
      truthyOptStr params.error = false →
      truthyOptStr params.code = true →
      params.state = some st → st ≠ "" →
      truthyOptStr (env.markerGet ("hubspot_state:" ++ st)) = true →
      (oauth2callback_hubspot env params credStore).tokenPosts = 1) := by
  constructor
  · intro cfg user_id org_id h
    rcases h with h | h <;> simp [authorize_hubspot, h]
  · intro env params credStore st herr hcode hst hne hmarker
    have hsome : truthyOptStr (some st) = true := by simp [truthyOptStr, hne]
    simp [oauth2callback_hubspot, herr, hcode, hst, hsome, hmarker]
    repeat' split
    all_goals rfl

theorem c4_config_check_witness :
    authorize_hubspot ⟨none, some "sec",
        "http://localhost:8000/integrations/hubspot/oauth2callback"⟩ "u" "o" =
      .error (.httpException 500 "HubSpot client configuration is missing") ∧
    (oauth2callback_hubspot cbEnvOk ⟨some "code123", some "u:o", none⟩ []).tokenPosts = 1 :=
  ⟨c4_config_check_amended.1 ⟨none, some "sec",
      "http://localhost:8000/integrations/hubspot/oauth2callback"⟩ "u" "o" (Or.inl rfl),
   c4_config_check_amended.2 cbEnvOk ⟨some "code123", some "u:o", none⟩ []
      "u:o" rfl rfl rfl (by decide) rfl⟩

/-- C5 counterexample: the claim says the state is split on the first
colon, so a state whose parts contain an extra colon still yields a
well-defined pair.  It does not: the source unpacks `state.split(":")`
into exactly two names, and the state `"a:b:c"` (user part `"a:b"`, org
part `"c"`), with a valid code, marker and token exchange, raises a
`ValueError` instead of yielding a pair. -/
theorem c5_split_counterexample :
    (oauth2callback_hubspot cbEnvOk ⟨some "code123", some "a:b:c", none⟩ []).result =
      .error (.valueError "too many values to unpack (expected 2)") := rfl

/-- C5 amended: the accepted callback splits the state on every colon and
unpacks the result into exactly two parts: a state with exactly one colon
yields the (user_id, org_id) pair around it (which coincides with
first-colon splitting), while a state with any other number of colons
raises a `ValueError` instead of yielding a pair. -/
theorem c5_split_amended (env : CallbackEnv) (params : QueryParams)
    (credStore : Store) (st : String)
    (herr : truthyOptStr params.error = false)
    (hcode : truthyOptStr params.code = true)
    (hst : params.state = some st) (hne : st ≠ "")
    (hmarker : truthyOptStr (env.markerGet ("hubspot_state:" ++ st)) = true)
    (hstatus : (env.tokenPost env.cfg.clientId env.cfg.clientSecret
        env.cfg.redirectUri (params.code.getD "")).status = 200) :
    ((pySplitColon st).length ≠ 2 →
      ∃ m, (oauth2callback_hubspot env params credStore).result =
        .error (.valueError m)) ∧
    (∀ (uid oid : String) (creds : JValue),
      pySplitColon st = [uid, oid] →
      credentialsOf (env.tokenPost env.cfg.clientId env.cfg.clientSecret
          env.cfg.redirectUri (params.code.getD "")).body = .ok creds →
      (oauth2callback_hubspot env params credStore).result =
        .ok ("Successfully authenticated with HubSpot",
             storeSet credStore ("hubspot_credentials:" ++ uid ++ ":" ++ oid) creds)) := by
  have hsome : truthyOptStr (some st) = true := by simp [truthyOptStr, hne]
  constructor
  · intro hlen
    simp [oauth2callback_hubspot, herr, hcode, hst, hsome, hmarker, hstatus]
    match hsp : pySplitColon st with
    | [] =>
      exact ⟨"too many values to unpack (expected 2)", rfl⟩
    | [x] =>
      exact ⟨"not enough values to unpack (expected 2, got 1)", rfl⟩
    | [uid, oid] =>
      rw [hsp] at hlen; simp at hlen
    | x :: y :: z :: rest =>
      exact ⟨"too many values to unpack (expected 2)", rfl⟩
  · intro uid oid creds hsp hcreds
    simp [oauth2callback_hubspot, herr, hcode, hst, hsome, hmarker, hstatus, hsp, hcreds]

theorem c5_split_amended_witness :
    (∃ m, (oauth2callback_hubspot cbEnvOk
        ⟨some "code123", some "a:b:c", none⟩ []).result = .error (.valueError m)) ∧
    (oauth2callback_hubspot cbEnvOk ⟨some "code123", some "u:o", none⟩ []).result =
      .ok ("Successfully authenticated with HubSpot",
           [("hubspot_credentials:u:o", sampleStoredCreds)]) :=
  ⟨(c5_split_amended cbEnvOk ⟨some "code123", some "a:b:c", none⟩ [] "a:b:c"
      rfl rfl rfl (by decide) rfl rfl).1 (by decide),
   (c5_split_amended cbEnvOk ⟨some "code123", some "u:o", none⟩ [] "u:o"
      rfl rfl rfl (by decide) rfl rfl).2 "u" "o" sampleStoredCreds rfl rfl⟩

/-- C6 counterexample: the claim quantifies over every request with the
`error` parameter present.  A present but empty `error` parameter is
falsy in Python, so the handler falls through: with valid code, state and
marker it performs a token exchange (one POST) and succeeds rather than
failing with an authorization-denied error. -/
theorem c6_error_param_counterexample :
    (oauth2callback_hubspot cbEnvOk ⟨some "code123", some "u:o", some ""⟩ []).tokenPosts = 1 ∧
    (oauth2callback_hubspot cbEnvOk ⟨some "code123", some "u:o", some ""⟩ []).result =
      .ok ("Successfully authenticated with HubSpot",
           [("hubspot_credentials:u:o", sampleStoredCreds)]) :=
  ⟨rfl, rfl⟩

/-- C6 amended: for every callback request whose `error` query parameter
is present and non-empty, the handler fails with the authorization-denied
error carrying the provider's error text and performs no token-endpoint
POST. -/
theorem c6_error_param_amended (env : CallbackEnv) (params : QueryParams)
    (credStore : Store) (e : String)
    (he : params.error = some e) (hne : e ≠ "") :
    oauth2callback_hubspot env params credStore =
      ⟨.error (.httpException 400 ("HubSpot authorization error: " ++ e)), 0⟩ := by
  have hse : truthyOptStr (some e) = true := by simp [truthyOptStr, hne]
  simp [oauth2callback_hubspot, he, hse]

theorem c6_error_param_amended_witness :
    oauth2callback_hubspot cbEnvOk ⟨some "code123", some "u:o", some "access_denied"⟩ [] =
      ⟨.error (.httpException 400 ("HubSpot authorization error: " ++ "access_denied")), 0⟩ :=
  c6_error_param_amended cbEnvOk ⟨some "code123", some "u:o", some "access_denied"⟩ []
    "access_denied" rfl (by decide)

/-! Sample records and environments for the fetch claims. -/

def adaContact : JValue :=
  .obj [("id", .str "1"),
        ("properties", .obj [("firstname", .str "Ada"), ("lastname", .str "Lovelace")]),
        ("createdAt", .str "2024-01-01T00:00:00Z"),
        ("updatedAt", .str "2024-01-02T00:00:00Z")]

def acmeCompany : JValue :=
  .obj [("id", .str "9"),
        ("properties", .obj []),
        ("createdAt", .str "2024-03-01T00:00:00Z"),
        ("updatedAt", .str "2024-03-02T00:00:00Z")]

def contactsBody : JValue := .obj [("results", .arr [adaContact])]

def companiesBody : JValue := .obj [("results", .arr [acmeCompany])]

def adaItem : IntegrationItem :=
  { id := .str "1", type := "contact", name := .str "Ada Lovelace",
    creation_time := ⟨"2024-01-01T00:00:00Z"⟩,
    last_modified_time := ⟨"2024-01-02T00:00:00Z"⟩,
    url := "https://app.hubspot.com/contacts/1" }

def acmeItem : IntegrationItem :=
  { id := .str "9", type := "company", name := .str "Unnamed Company",
    creation_time := ⟨"2024-03-01T00:00:00Z"⟩,
    last_modified_time := ⟨"2024-03-02T00:00:00Z"⟩,
    url := "https://app.hubspot.com/companies/9" }

def fetchEnvOk : FetchEnv :=
  { cfg := { clientId := some "cid", clientSecret := some "sec",
             redirectUri := "http://localhost:8000/integrations/hubspot/oauth2callback" },
    dataGet := fun _ endpoint =>
      if endpoint = "crm/v3/objects/contacts" then ⟨200, contactsBody⟩
      else ⟨200, companiesBody⟩,
    refreshPost := fun _ _ _ => ⟨200, sampleRefreshBody⟩ }

def fetchEnvNoContactResults : FetchEnv :=
  { cfg := { clientId := some "cid", clientSecret := some "sec",
             redirectUri := "http://localhost:8000/integrations/hubspot/oauth2callback" },
    dataGet := fun _ endpoint =>
      if endpoint = "crm/v3/objects/contacts" then ⟨200, .obj []⟩
      else ⟨200, companiesBody⟩,
    refreshPost := fun _ _ _ => ⟨200, sampleRefreshBody⟩ }

def fetchEnvNoCompanyResults : FetchEnv :=
  { cfg := { clientId := some "cid", clientSecret := some "sec",
             redirectUri := "http://localhost:8000/integrations/hubspot/oauth2callback" },
    dataGet := fun _ endpoint =>
      if endpoint = "crm/v3/objects/contacts" then ⟨200, contactsBody⟩
      else ⟨200, .obj []⟩,
    refreshPost := fun _ _ _ => ⟨200, sampleRefreshBody⟩ }

/-- A successful `mapExcept` run maps the list elementwise in order: the
output has the input's length and its `i`-th item is the mapping of the
`i`-th record. -/
theorem mapExcept_ok_spec (f : JValue → Except PyError IntegrationItem)
    (xs : List JValue) (ys : List IntegrationItem)
    (h : mapExcept f xs = .ok ys) :
    ys.length = xs.length ∧
    ∀ i (hi : i < xs.length) (hj : i < ys.length),
      f (xs.get ⟨i, hi⟩) = .ok (ys.get ⟨i, hj⟩) := by
  induction xs generalizing ys with
  | nil =>
    simp only [mapExcept, Except.ok.injEq] at h
    subst h
    exact ⟨rfl, fun i hi => absurd hi (Nat.not_lt_zero i)⟩
  | cons x rest ih =>
    simp only [mapExcept] at h
    cases hfx : f x with
    | error e => rw [hfx] at h; simp at h
    | ok y =>
      rw [hfx] at h
      cases hrest : mapExcept f rest with
      | error e => rw [hrest] at h; simp at h
      | ok ys' =>
        rw [hrest] at h
        simp only [Except.ok.injEq] at h
        subst h
        obtain ⟨hlen, hpt⟩ := ih ys' hrest
        refine ⟨by simp [hlen], ?_⟩
        intro i hi hj
        cases i with
        | zero => simpa using hfx
        | succ n =>
          simp only [List.get_cons_succ]
          exact hpt n (by simpa using hi) (by simpa using hj)

/-- C7: on a successful fetch the returned sequence is exactly the mapped
contacts followed by the mapped companies; each group is the in-order,
elementwise image of the single `results` array the provider returned for
that collection (same length, `i`-th item mapped from the `i`-th record),
with no re-sorting and no further pages requested. -/
theorem c7_ordering (env : FetchEnv)
    (credentials access_token cbody combody : JValue)
    (cs comps : List JValue) (contactItems companyItems : List IntegrationItem)
    (htok : pyGetItem credentials "access_token" = .ok access_token)
    (hcresp : (make_request env credentials access_token
        "crm/v3/objects/contacts").fst = .ok cbody)
    (hcres : pyDictGetD cbody "results" (.arr []) = .ok (.arr cs))
    (hcmap : mapExcept contact_to_item cs = .ok contactItems)
    (hmresp : (make_request env credentials access_token
        "crm/v3/objects/companies").fst = .ok combody)
    (hmres : pyDictGetD combody "results" (.arr []) = .ok (.arr comps))
    (hmmap : mapExcept company_to_item comps = .ok companyItems) :
    get_items_hubspot env credentials = .ok (contactItems ++ companyItems) ∧
    contactItems.length = cs.length ∧ companyItems.length = comps.length ∧
    (∀ i (hi : i < cs.length) (hj : i < contactItems.length),
      contact_to_item (cs.get ⟨i, hi⟩) = .ok (contactItems.get ⟨i, hj⟩)) ∧
    (∀ i (hi : i < comps.length) (hj : i < companyItems.length),
      company_to_item (comps.get ⟨i, hi⟩) = .ok (companyItems.get ⟨i, hj⟩)) := by
  obtain ⟨hcl, hcp⟩ := mapExcept_ok_spec contact_to_item cs contactItems hcmap
  obtain ⟨hml, hmp⟩ := mapExcept_ok_spec company_to_item comps companyItems hmmap
  refine ⟨?_, hcl, hml, hcp, hmp⟩
  simp [get_items_hubspot, htok, hcresp, hcres, hcmap, hmresp, hmres, hmmap, pyIterList]

theorem c7_ordering_witness :
    get_items_hubspot fetchEnvOk sampleCredsRT = .ok ([adaItem] ++ [acmeItem]) :=
  (c7_ordering fetchEnvOk sampleCredsRT (.str "tokOld") contactsBody companiesBody
    [adaContact] [acmeCompany] [adaItem] [acmeItem]
    rfl rfl rfl rfl rfl rfl rfl).1

/-- C8: a contact record with a `properties` dict, an id and string
timestamps maps to an item with `type="contact"`, name the stripped
concatenation of the `firstname` and `lastname` properties (the `.get`
defaults substituting `""` for missing parts), the times parsed from
`createdAt`/`updatedAt`, and the url the fixed contacts template plus the
record id. -/
theorem c8_contact_mapping (contact props idv : JValue) (f l ca ua : String)
    (hprops : pyGetItem contact "properties" = .ok props)
    (hfn : pyDictGetD props "firstname" (.str "") = .ok (.str f))
    (hln : pyDictGetD props "lastname" (.str "") = .ok (.str l))
    (hid : pyGetItem contact "id" = .ok idv)
    (hca : pyGetItem contact "createdAt" = .ok (.str ca))
    (hua : pyGetItem contact "updatedAt" = .ok (.str ua)) :
    contact_to_item contact =
      .ok { id := idv, type := "contact",
            name := .str (pyStrip (f ++ " " ++ l)),
            creation_time := ⟨ca⟩, last_modified_time := ⟨ua⟩,
            url := "https://app.hubspot.com/contacts/" ++ pyStr idv } := by
  simp [contact_to_item, hprops, hfn, hln, hid, hca, hua, parse_datetime, pyStr]

theorem c8_contact_mapping_witness :
    contact_to_item adaContact = .ok adaItem :=
  c8_contact_mapping adaContact
    (.obj [("firstname", .str "Ada"), ("lastname", .str "Lovelace")]) (.str "1")
    "Ada" "Lovelace" "2024-01-01T00:00:00Z" "2024-01-02T00:00:00Z"
    rfl rfl rfl rfl rfl rfl

/-- C9: a company record maps to an item with `type="company"` whose name
is the company's `name` property when present and the literal
`"Unnamed Company"` when the property is missing; timestamps and url are
analogous to contacts. -/
theorem c9_company_name (company idv : JValue) (pf : List (String × JValue))
    (ca ua : String)
    (hprops : pyGetItem company "properties" = .ok (.obj pf))
    (hid : pyGetItem company "id" = .ok idv)
    (hca : pyGetItem company "createdAt" = .ok (.str ca))
    (hua : pyGetItem company "updatedAt" = .ok (.str ua)) :
    (jLookup pf "name" = none →
      company_to_item company =
        .ok { id := idv, type := "company", name := .str "Unnamed Company",
              creation_time := ⟨ca⟩, last_modified_time := ⟨ua⟩,
              url := "https://app.hubspot.com/companies/" ++ pyStr idv }) ∧
    (∀ v, jLookup pf "name" = some v →
      company_to_item company =
        .ok { id := idv, type := "company", name := v,
              creation_time := ⟨ca⟩, last_modified_time := ⟨ua⟩,
              url := "https://app.hubspot.com/companies/" ++ pyStr idv }) := by
  constructor
  · intro hnone
    simp [company_to_item, hprops, pyDictGetD, hnone, hid, hca, hua, parse_datetime]
  · intro v hv
    simp [company_to_item, hprops, pyDictGetD, hv, hid, hca, hua, parse_datetime]

theorem c9_company_name_witness :
    company_to_item acmeCompany = .ok acmeItem :=
  (c9_company_name acmeCompany (.str "9") [] "2024-03-01T00:00:00Z"
    "2024-03-02T00:00:00Z" rfl rfl rfl rfl).1 rfl

/-- C10: a collection whose response body is a dict without the
`"results"` key contributes zero items and raises nothing — the `.get`
default substitutes an empty list — while the other collection's items
are still returned; stated for the contacts collection and for the
companies collection. -/
theorem c10_missing_results :
    (∀ (env : FetchEnv) (credentials access_token combody : JValue)
        (cf : List (String × JValue)) (comps : List JValue)
        (companyItems : List IntegrationItem),
      pyGetItem credentials "access_token" = .ok access_token →
      (make_request env credentials access_token
        "crm/v3/objects/contacts").fst = .ok (.obj cf) →
      jLookup cf "results" = none →
      (make_request env credentials access_token
        "crm/v3/objects/companies").fst = .ok combody →
      pyDictGetD combody "results" (.arr []) = .ok (.arr comps) →
      mapExcept company_to_item comps = .ok companyItems →
      get_items_hubspot env credentials = .ok companyItems) ∧
    (∀ (env : FetchEnv) (credentials access_token cbody : JValue)
        (mf : List (String × JValue)) (cs : List JValue)
        (contactItems : List IntegrationItem),
      pyGetItem credentials "access_token" = .ok access_token →
      (make_request env credentials access_token
        "crm/v3/objects/contacts").fst = .ok cbody →
      pyDictGetD cbody "results" (.arr []) = .ok (.arr cs) →
      mapExcept contact_to_item cs = .ok contactItems →
      (make_request env credentials access_token
        "crm/v3/objects/companies").fst = .ok (.obj mf) →
      jLookup mf "results" = none →
      get_items_hubspot env credentials = .ok contactItems) := by
  constructor
  · intro env credentials access_token combody cf comps companyItems
      htok hcresp hnone hmresp hmres hmmap
    have hcres : pyDictGetD (.obj cf) "results" (.arr []) = .ok (.arr []) := by
      simp [pyDictGetD, hnone]
    simp [get_items_hubspot, htok, hcresp, hcres, hmresp, hmres, hmmap,
      pyIterList, mapExcept]
  · intro env credentials access_token cbody mf cs contactItems
      htok hcresp hcres hcmap hmresp hnone
    have hmres : pyDictGetD (.obj mf) "results" (.arr []) = .ok (.arr []) := by
      simp [pyDictGetD, hnone]
    simp [get_items_hubspot, htok, hcresp, hcres, hcmap, hmresp, hmres,
      pyIterList, mapExcept]

theorem c10_missing_results_witness :
    get_items_hubspot fetchEnvNoContactResults sampleCredsRT = .ok [acmeItem] ∧
    get_items_hubspot fetchEnvNoCompanyResults sampleCredsRT = .ok [adaItem] :=
  ⟨c10_missing_results.1 fetchEnvNoContactResults sampleCredsRT (.str "tokOld")
      companiesBody [] [acmeCompany] [acmeItem] rfl rfl rfl rfl rfl rfl,
   c10_missing_results.2 fetchEnvNoCompanyResults sampleCredsRT (.str "tokOld")
      contactsBody [] [adaContact] [adaItem] rfl rfl rfl rfl rfl rfl⟩

end HubSpot
